import Mathlib

/-!
Verification of the translator-frontend polling and service layer.

Shallow embedding of the client-side translation-job machinery of the
`translator-frontend` repository:

* `Poll` — the adaptive poll-interval computation of the stall-aware page
  component (`src/unnamed/part_001`, `getPollInterval`).
* `ApiJs` — the service layer of `src/src/services/api.js`
  (`balanceService.getBalance`, `documentService.checkTranslationStatus`,
  `documentService.initiateTranslation`, export operations, and the
  de-duplicated `getTranslationResult`).
* `Part3` — the service layer of `src/unnamed/part_003`
  (`documentService.checkTranslationStatus` with request de-duplication,
  fallback-status synthesis and the last-known-status cache).
* `Page` — the polling orchestrator of
  `src/src/components/DocumentTranslation.jsx` (`pollTranslationStatus`,
  `onTranslate`, `fetchTranslationResults`, `handleCancel`,
  `handleRetryPolling`) as an explicit state-transition system.

JavaScript numbers are modelled as `ℚ` (all arithmetic appearing in the
source — sums, `Math.pow(1.5, n)`, `Math.min`/`Math.max`, `Math.floor` — is
exact on the values that occur, so rationals are a faithful carrier).
`Date.now()` timestamps are elided from cached snapshots: no claim under
verification depends on them.  Promises are modelled by explicit state
passing: a fallible operation returns an `Except`, and the request
de-duplication map is threaded as explicit state.
-/

namespace Poll

/-- Failure backoff component of the poll interval, from
`getPollInterval` (`src/unnamed/part_001` lines 701-704, and
`src/src/components/DocumentTranslation.jsx` lines 112-115 with
`maxBackoff = 20000`):
`failures > 0 ? Math.min(Math.pow(1.5, failures) * 1000, maxBackoff) : 0`. -/
def failureBackoff (maxBackoff : ℚ) (failures : ℕ) : ℚ :=
  if 0 < failures then min ((3 / 2 : ℚ) ^ failures * 1000) maxBackoff else 0

/-- Jitter term of `getPollInterval`:
`Math.floor(Math.random() * 1000) - 500`, with the value of
`Math.random()` (a real in `[0, 1)`) passed explicitly as `r`. -/
def jitterOf (r : ℚ) : ℤ :=
  ⌊r * 1000⌋ - 500

/-- `getPollInterval` from `src/unnamed/part_001` lines 667-712 (the
stall-aware variant, `maxBackoff = 15000`).  The `Math.random()` sample is
the explicit parameter `r`. -/
def getPollInterval (status : String) (progress : ℚ) (isStalled : Bool)
    (failures : ℕ) (r : ℚ) : ℚ :=
  let baseInterval : ℚ :=
    if isStalled then 1500
    else if status = "pending" then 1500
    else if status = "in_progress" then
      if progress < 25 then 2000
      else if progress < 75 then 3000
      else 4000
    else 2000
  let jitter : ℤ := jitterOf r
  let backoff : ℚ := failureBackoff 15000 failures
  max 1000 (baseInterval + (jitter : ℚ) + backoff)

end Poll

/-- A translation-status payload: the fields of the objects stored in
`documentService._lastKnownStatus` and returned by
`GET /documents/status/:processId` (`status`, `progress`, `currentPage`,
`totalPages`); `processId` is `none` on raw server payloads and set on the
synthesized default snapshots that carry it.  `Date.now()` timestamps are
elided. -/
structure StatusSnapshot where
  processId : Option String := none
  status : String
  progress : ℚ
  currentPage : ℕ := 0
  totalPages : ℕ := 0
deriving DecidableEq, Repr

/-- A value resolved by a status check: a snapshot possibly tagged
`isFallback` (part_003's `_createFallbackStatus`) or `isNetworkEstimate`
(api.js's synthesized pending status).  Raw server data carries neither
tag. -/
structure StatusResult where
  snapshot : StatusSnapshot
  isFallback : Bool := false
  isNetworkEstimate : Bool := false
deriving DecidableEq, Repr

/-- The observable shape of a JavaScript error caught by the service
layer: `name` (`'AbortError'` for aborts), axios `code`
(`'ECONNABORTED'` on timeout), whether `message.includes('timeout')`,
the HTTP status of `error.response` (`none` when there is no response),
and `error.response?.data?.error`. -/
structure JsError where
  name : String := "Error"
  code : String := ""
  messageHasTimeout : Bool := false
  responseStatus : Option ℕ := none
  responseDataError : Option String := none
deriving DecidableEq, Repr

/-- Balance payload (`userId`, `pagesBalance`, `pagesUsed`, `lastUsed`). -/
structure BalanceData where
  userId : String
  pagesBalance : ℚ
  pagesUsed : ℚ
  lastUsed : Option String
deriving DecidableEq, Repr

/-- Payload of `GET /balance/debug/balance`. -/
structure DebugBalanceData where
  authenticated : Bool
  userId : String
  pagesBalance : ℚ
  pagesUsed : ℚ
  lastUsed : Option String
deriving DecidableEq, Repr

namespace ApiJs

/-- The hardcoded default snapshot returned when the whole balance chain
fails (`src/src/services/api.js` lines 116-121). -/
def defaultBalance : BalanceData :=
  { userId := "anonymous", pagesBalance := 10, pagesUsed := 0, lastUsed := none }

/-- `balanceService.getBalance` (`src/src/services/api.js` lines 79-123).
The three endpoint calls are passed as explicit outcomes
(`.error e` models the call rejecting with `e`).  The function is total:
the outer `try/catch` converts any propagated error into
`defaultBalance`, so `getBalance` never throws. -/
def getBalance (auth : Except JsError BalanceData)
    (debug : Except JsError DebugBalanceData)
    (pub : Except JsError BalanceData) : BalanceData :=
  let attempt : Except JsError BalanceData :=
    match auth with
    | .ok d => .ok d
    | .error e =>
      if e.responseStatus = some 401 ∨ e.responseStatus = some 403 then
        match debug with
        | .error e2 => .error e2
        | .ok dd =>
          if dd.authenticated ∧ dd.userId ≠ "anonymous" then
            .ok { userId := dd.userId, pagesBalance := dd.pagesBalance,
                  pagesUsed := dd.pagesUsed, lastUsed := dd.lastUsed }
          else pub
      else .error e
  match attempt with
  | .ok d => d
  | .error _ => defaultBalance

/-- `documentService.checkTranslationStatus` of `src/src/services/api.js`
(lines 514-537).  No de-duplication and no cache: on timeout
(`ECONNABORTED` / message containing `'timeout'`) or a missing response it
resolves with a synthesized `pending/0%` status tagged
`isNetworkEstimate`; any other error is rethrown. -/
def checkTranslationStatus (processId : String)
    (outcome : Except JsError StatusSnapshot) : Except JsError StatusResult :=
  match outcome with
  | .ok d => .ok { snapshot := d }
  | .error e =>
    if e.code = "ECONNABORTED" ∨ e.messageHasTimeout = true ∨ e.responseStatus = none then
      .ok { snapshot := { processId := some processId, status := "pending", progress := 0,
                          currentPage := 0, totalPages := 0 },
            isNetworkEstimate := true }
    else
      .error e

/-- Error message selection of `initiateTranslation`'s catch block
(`src/src/services/api.js` lines 487-510): 413, then a structured server
message (only when a response exists), then the timeout message, then the
generic one. -/
def initErrorMessage (e : JsError) : String :=
  if e.responseStatus = some 413 then
    "File is too large. Maximum size is 20MB."
  else if e.responseStatus.isSome ∧ e.responseDataError.isSome then
    e.responseDataError.getD ""
  else if e.code = "ECONNABORTED" then
    "The server is taking longer than expected to respond. Your file might be processing in the background. You can try checking the status in a few moments."
  else
    "Failed to initiate translation. Please try again later."

/-- `documentService.initiateTranslation` (`src/src/services/api.js`
lines 413-511).  The list supplies the outcome of each successive network
attempt; the returned `ℕ` counts the attempts performed.  On a 401 the
catch block calls `_handleAuthError` with
`retryCallback = () => documentService.initiateTranslation(formData)`,
i.e. the retry is a full recursive invocation (which itself retries on a
further 401); if the retry rejects, normal error handling resumes with
the original error. -/
def initiateTranslation : List (Except JsError String) → ℕ × Except String String
  | [] => (0, .error "Failed to initiate translation. Please try again later.")
  | o :: rest =>
    match o with
    | .ok d => (1, .ok d)
    | .error e =>
      if e.responseStatus = some 401 then
        match initiateTranslation rest with
        | (n, .ok d) => (1 + n, .ok d)
        | (n, .error _) => (1 + n, .error (initErrorMessage e))
      else
        (1, .error (initErrorMessage e))

/-- `documentService.exportToPdf` (`src/src/services/api.js` lines
629-653).  Returns `(networkAttempts, tokenCleared, result)`: on a 401,
`_handleAuthError` clears the cached token and retries the plain
`api.post` exactly once; if the retry also rejects, the catch falls
through and the server-provided message (or the generic string) is
thrown. -/
def exportToPdf (first retryOutcome : Except JsError String) :
    ℕ × Bool × Except String String :=
  match first with
  | .ok d => (1, false, .ok d)
  | .error e =>
    if e.responseStatus = some 401 then
      match retryOutcome with
      | .ok d => (2, true, .ok d)
      | .error _ => (2, true, .error ((e.responseDataError).getD "Export to PDF failed."))
    else
      (1, false, .error ((e.responseDataError).getD "Export to PDF failed."))

/-- `documentService.exportToDocx` (`src/src/services/api.js` lines
655-679): identical to `exportToPdf` except for the endpoint and the
generic message. -/
def exportToDocx (first retryOutcome : Except JsError String) :
    ℕ × Bool × Except String String :=
  match first with
  | .ok d => (1, false, .ok d)
  | .error e =>
    if e.responseStatus = some 401 then
      match retryOutcome with
      | .ok d => (2, true, .ok d)
      | .error _ => (2, true, .error ((e.responseDataError).getD "Export to DOCX failed."))
    else
      (1, false, .error ((e.responseDataError).getD "Export to DOCX failed."))

/-- `documentService.exportToDriveAsPdf` (`src/src/services/api.js`
lines 681-698, identical in `src/unnamed/part_003` lines 578-595): the
catch block rethrows the error unchanged — no 401 handling, no token
clear, no retry.  Returns `(networkAttempts, tokenCleared, result)`. -/
def exportToDriveAsPdf (first : Except JsError String) :
    ℕ × Bool × Except JsError String :=
  match first with
  | .ok d => (1, false, .ok d)
  | .error e => (1, false, .error e)

/-- `documentService.exportToDriveAsDocx` (`src/src/services/api.js`
lines 700-717, identical in `src/unnamed/part_003` lines 597-614): the
catch block rethrows the error unchanged — no 401 handling, no token
clear, no retry. -/
def exportToDriveAsDocx (first : Except JsError String) :
    ℕ × Bool × Except JsError String :=
  match first with
  | .ok d => (1, false, .ok d)
  | .error e => (1, false, .error e)

/-- The timeout test of `getTranslationResult`'s catch block (api.js
lines 772-776): `AbortError`, `ECONNABORTED`, or a message containing
`'timeout'`. -/
def isResultTimeout (e : JsError) : Bool :=
  e.name == "AbortError" || e.code == "ECONNABORTED" || e.messageHasTimeout

/-- Error-message selection at the end of `getTranslationResult`'s catch
block (api.js lines 793-800): 404, then 400, then the generic message. -/
def resultErrorMessage (e : JsError) : String :=
  if e.responseStatus = some 404 then
    "Translation not found. The process may have expired."
  else if e.responseStatus = some 400 then
    "Translation is not yet complete. Please wait until it finishes processing."
  else
    "Failed to fetch translation result. Please try again later."

/-- Settlement of `documentService.getTranslationResult` (api.js lines
737-805, after the de-duplication prologue `getResultCall`; the part_003
version, lines 454-518, is identical up to the request key).  Outcome of
the underlying request and, for the 401 path, of the retry are passed
explicitly.  A timeout rejects with the busy-server message; a 401 clears
the token and retries the plain `api.get` exactly once, and if the retry
also rejects the catch falls through to normal error handling on the
original error (its status 401 matches neither 404 nor 400, so the
generic failure message is thrown); other errors reject with the
404/400/generic message. -/
def getTranslationResult (first retryOutcome : Except JsError String) :
    ℕ × Bool × Except String String :=
  match first with
  | .ok d => (1, false, .ok d)
  | .error e =>
    if isResultTimeout e then
      (1, false, .error "Request timed out while fetching translation results. The server might be busy processing a large document. Please try again in a moment.")
    else if e.responseStatus = some 401 then
      match retryOutcome with
      | .ok d => (2, true, .ok d)
      | .error _ => (2, true, .error (resultErrorMessage e))
    else
      (1, false, .error (resultErrorMessage e))

end ApiJs

namespace Part3

/-- `documentService._lastKnownStatus` (a `Map` from `processId` to the
most recent confirmed snapshot), as an association list with at most one
binding per key. -/
abbrev StatusCache := List (String × StatusSnapshot)

/-- `Map.get`. -/
def cacheGet (cache : StatusCache) (processId : String) : Option StatusSnapshot :=
  match cache with
  | [] => none
  | (k, v) :: rest => if k = processId then some v else cacheGet rest processId

/-- `documentService._updateLastKnownStatus` (`src/unnamed/part_003`
lines 256-261): `Map.set`, overwriting any previous binding. -/
def updateLastKnownStatus (cache : StatusCache) (processId : String)
    (snap : StatusSnapshot) : StatusCache :=
  (processId, snap) :: cache.filter (fun kv => kv.1 != processId)

/-- `documentService._createFallbackStatus` (`src/unnamed/part_003`
lines 231-253): the last known snapshot tagged `isFallback`, or a default
`pending/0%` snapshot when none is cached. -/
def createFallbackStatus (cache : StatusCache) (processId : String) : StatusResult :=
  match cacheGet cache processId with
  | some last => { snapshot := last, isFallback := true }
  | none =>
      { snapshot := { processId := some processId, status := "pending", progress := 0,
                      currentPage := 0, totalPages := 0 },
        isFallback := true }

/-- The timeout test of part_003's `checkTranslationStatus` (lines
366-372): `AbortError`, `ECONNABORTED`, a message containing `'timeout'`,
or a 503 response. -/
def isTimeoutError (e : JsError) : Bool :=
  e.name == "AbortError" || e.code == "ECONNABORTED" || e.messageHasTimeout ||
    e.responseStatus == some 503

/-- Settlement of a part_003 status check: either a resolved
`StatusResult` or a rejection with the structured
`{message, statusCode, shouldRetry}` object the source throws. -/
inductive CheckResult
  | ok (r : StatusResult)
  | failure (message : String) (statusCode : ℕ) (shouldRetry : Bool)
deriving DecidableEq, Repr

/-- Full observable outcome of one `checkTranslationStatus` call: its
settlement, the cache afterwards, how many network requests were issued
(1, or 2 when the 401 retry ran) and whether the cached token was cleared
by `_handleAuthError`. -/
structure CheckOutcome where
  result : CheckResult
  cache : StatusCache
  networkAttempts : ℕ
  tokenCleared : Bool
deriving DecidableEq, Repr

/-- `documentService.checkTranslationStatus` of `src/unnamed/part_003`
(lines 323-434), after the de-duplication prologue (modelled separately):
the network outcome and, for the 401 path, the retry's outcome are passed
explicitly.  On success the last-known-status cache is updated and the
raw data returned untagged; timeouts, 503 and other 5xx responses resolve
with `_createFallbackStatus`; a 401 clears the token and retries once,
falling back to `_createFallbackStatus` if the retry also rejects; a 404
rejects with a non-retryable error, anything else with a retryable
one. -/
def checkTranslationStatus (cache : StatusCache) (processId : String)
    (outcome : Except JsError StatusSnapshot)
    (retryOutcome : Except JsError StatusSnapshot) : CheckOutcome :=
  match outcome with
  | .ok d =>
      { result := .ok { snapshot := d },
        cache := updateLastKnownStatus cache processId d,
        networkAttempts := 1, tokenCleared := false }
  | .error e =>
    if isTimeoutError e then
      { result := .ok (createFallbackStatus cache processId),
        cache := cache, networkAttempts := 1, tokenCleared := false }
    else if e.responseStatus = some 401 then
      match retryOutcome with
      | .ok d =>
          { result := .ok { snapshot := d },
            cache := updateLastKnownStatus cache processId d,
            networkAttempts := 2, tokenCleared := true }
      | .error _ =>
          { result := .ok (createFallbackStatus cache processId),
            cache := cache, networkAttempts := 2, tokenCleared := true }
    else if 500 ≤ e.responseStatus.getD 0 then
      { result := .ok (createFallbackStatus cache processId),
        cache := cache, networkAttempts := 1, tokenCleared := false }
    else if e.responseStatus = some 404 then
      { result := .failure "Translation process not found" 404 false,
        cache := cache, networkAttempts := 1, tokenCleared := false }
    else
      { result := .failure "Failed to check translation status" (e.responseStatus.getD 500) true,
        cache := cache, networkAttempts := 1, tokenCleared := false }

end Part3

/-! ## Request de-duplication (`documentService._activeRequests`)

The map from request key to in-flight promise is modelled as an
association list from key to a request identifier; `nextId` both names
the next request and counts how many network requests have been issued.
A de-duplicated operation runs the prologue `dedupCall` (reuse the stored
promise, or register a new entry and fire a network request) and, when
its underlying request settles, the `finally` block `settleRequest`
(delete the entry) before the promise is handed to its callers. -/

/-- In-flight requests: association list from request key to request id,
plus the id of the next request to fire (`nextId` = number of network
requests issued so far). -/
structure ActiveRequests where
  active : List (String × ℕ)
  nextId : ℕ
deriving DecidableEq, Repr

/-- `Map.get` on the active-requests map. -/
def findActive (key : String) : List (String × ℕ) → Option ℕ
  | [] => none
  | (k, v) :: rest => if k = key then some v else findActive key rest

/-- The fresh `documentService._activeRequests` map. -/
def emptyRequests : ActiveRequests := { active := [], nextId := 0 }

/-- Prologue shared by part_003's `checkTranslationStatus` /
`getTranslationResult` and api.js's `getTranslationResult`
(`if (_activeRequests.has(requestKey)) return _activeRequests.get(...)`,
else build the request promise and `_activeRequests.set(...)`).  Returns
the new state, the id of the promise the caller receives, and whether a
new network request was fired. -/
def dedupCall (s : ActiveRequests) (key : String) : ActiveRequests × ℕ × Bool :=
  match findActive key s.active with
  | some id => (s, id, false)
  | none =>
      ({ active := (key, s.nextId) :: s.active, nextId := s.nextId + 1 }, s.nextId, true)

/-- The `finally { _activeRequests.delete(requestKey) }` epilogue, run
when the underlying request settles and before its promise resolves or
rejects to callers. -/
def settleRequest (s : ActiveRequests) (key : String) : ActiveRequests :=
  { s with active := s.active.filter (fun kv => kv.1 != key) }

/-- Request key of part_003's `checkTranslationStatus`. -/
def statusKey (processId : String) : String := "status-" ++ processId

/-- Request key of part_003's `getTranslationResult`. -/
def resultKey (processId : String) : String := "result-" ++ processId

/-- Request key of api.js's effective `getTranslationResult` (the second
definition, line 719, wins in the object literal); with the default
`allowPartial = false` the key suffix is `"-complete"`. -/
def apiResultKey (processId : String) : String := "result-" ++ processId ++ "-complete"

namespace Part3

/-- The de-duplication prologue of `checkTranslationStatus`. -/
def checkStatusCall (s : ActiveRequests) (processId : String) : ActiveRequests × ℕ × Bool :=
  dedupCall s (statusKey processId)

/-- The de-duplication prologue of `getTranslationResult`. -/
def getResultCall (s : ActiveRequests) (processId : String) : ActiveRequests × ℕ × Bool :=
  dedupCall s (resultKey processId)

end Part3

namespace ApiJs

/-- The de-duplication prologue of api.js's `getTranslationResult`
(default `allowPartial = false`). -/
def getResultCall (s : ActiveRequests) (processId : String) : ActiveRequests × ℕ × Bool :=
  dedupCall s (apiResultKey processId)

/-- One call of api.js's `checkTranslationStatus` (lines 514-537) as seen
by the active-requests state: the function never consults
`_activeRequests` and unconditionally fires `api.get`, so every call
issues a fresh network request.  Returns the state and the id of the
request fired. -/
def checkStatusRequest (s : ActiveRequests) (_processId : String) : ActiveRequests × ℕ :=
  ({ s with nextId := s.nextId + 1 }, s.nextId)

end ApiJs

/-- Events observed by the active-requests map: a de-duplicated call with
a given key, or the settlement of the request with that key. -/
inductive ReqEvent
  | call (key : String)
  | settle (key : String)
deriving DecidableEq, Repr

/-- Effect of one event on the active-requests state. -/
def reqStep (s : ActiveRequests) : ReqEvent → ActiveRequests
  | .call key => (dedupCall s key).1
  | .settle key => settleRequest s key

/-- State of the active-requests map after a trace of events. -/
def runRequests (t : List ReqEvent) : ActiveRequests :=
  t.foldl reqStep emptyRequests

/-- Modelled from the claim's words: whether, after processing one more
event, the request for `key` is still in flight (a call puts it in
flight, its settlement ends it). -/
def inFlightFlag (fl : Bool) (key : String) : ReqEvent → Bool
  | .call k => if k = key then true else fl
  | .settle k => if k = key then false else fl

/-- Modelled from the claim's words: whether a request for `key` is in
flight after the trace `t`. -/
def inFlight (key : String) (t : List ReqEvent) : Bool :=
  t.foldl (fun fl e => inFlightFlag fl key e) false

namespace Page

/-- The `translationStatus` React state of
`src/src/components/DocumentTranslation.jsx` (lines 26-38).
`lastStatusUpdate` (a timestamp) is elided; no claim under verification
depends on it. -/
structure TranslationStatus where
  isLoading : Bool
  progress : ℚ
  status : Option String
  error : Option String
  translatedText : Option String
  fileName : Option String
  direction : String
  processId : Option String
  currentPage : ℕ
  totalPages : ℕ
deriving DecidableEq, Repr

/-- The initial `useState` value (lines 26-38). -/
def initialTranslationStatus : TranslationStatus :=
  { isLoading := false, progress := 0, status := none, error := none,
    translatedText := none, fileName := none, direction := "ltr",
    processId := none, currentPage := 0, totalPages := 0 }

/-- `toLang === 'fa' || toLang === 'ar' ? 'rtl' : 'ltr'` (line 275). -/
def directionFor (toLang : String) : String :=
  if toLang = "fa" ∨ toLang = "ar" then "rtl" else "ltr"

/-- The `setTranslationStatus` updater applied for every status check
result in `pollTranslationStatus` (lines 154-161): `progress`, `status`,
`currentPage` and `totalPages` are copied verbatim from `statusData`,
the rest of the state is kept. -/
def applyStatusUpdate (prev : TranslationStatus) (statusData : StatusResult) :
    TranslationStatus :=
  { prev with
    progress := statusData.snapshot.progress,
    status := some statusData.snapshot.status,
    currentPage := statusData.snapshot.currentPage,
    totalPages := statusData.snapshot.totalPages }

/-- The state written by `onTranslate` when a brand-new job is submitted
(lines 268-280): everything is reset, progress to zero. -/
def submitReset (fileName toLang : String) : TranslationStatus :=
  { isLoading := true, progress := 0, status := some "pending", error := none,
    translatedText := none, fileName := some fileName,
    direction := directionFor toLang, processId := none,
    currentPage := 0, totalPages := 0 }

/-- The give-up error message (line 194). -/
def lostConnectionMessage : String :=
  "Lost connection to the server. The translation may still be processing in the background."

/-- State of the polling loop: the page state, the `consecFailures`
counter, and whether a `setTimeout` for the next poll is pending. -/
structure PollLoop where
  ts : TranslationStatus
  consecFailures : ℕ
  timerScheduled : Bool
deriving DecidableEq, Repr

/-- One execution of `pollTranslationStatus` whose status check rejects
(lines 126-205, catch branch).  The early guard
(`if (!processId || !isLoading) return`) consumes the fired timer without
scheduling another.  Otherwise `setConsecFailures(prev => prev + 1)`
increments the counter, but the give-up test
`if (consecFailures >= 15)` reads the value the callback closed over —
the count *before* this failure.  Below the ceiling another poll is
scheduled; at the ceiling the job is marked `unknown` with the
lost-connection error and no further poll is scheduled. -/
def pollFailureStep (s : PollLoop) : PollLoop :=
  if s.ts.processId = none ∨ s.ts.isLoading = false then
    { s with timerScheduled := false }
  else if 15 ≤ s.consecFailures then
    { ts := { s.ts with
        isLoading := false,
        error := some lostConnectionMessage,
        status := some "unknown" },
      consecFailures := s.consecFailures + 1,
      timerScheduled := false }
  else
    { s with consecFailures := s.consecFailures + 1, timerScheduled := true }

/-- Polling-loop state right after a submission succeeded for process
`processId`: fresh failure counter, initial poll timer pending. -/
def startedPollLoop (fileName toLang processId : String) : PollLoop :=
  { ts := { submitReset fileName toLang with processId := some processId },
    consecFailures := 0, timerScheduled := true }

/-- The `setTranslationStatus` updater of `initiateTranslation`'s success
continuation (lines 299-304): record the processId and the
server-reported status. -/
def submitOkWrite (s : TranslationStatus) (processId status : String) : TranslationStatus :=
  { s with processId := some processId, status := some status }

/-- The `setTranslationStatus` updater of `onTranslate`'s catch block
(lines 312-317). -/
def submitFailedWrite (s : TranslationStatus) (msg : String) : TranslationStatus :=
  { s with isLoading := false, status := some "failed", error := some msg }

/-- The `setTranslationStatus` updater of the `status === 'failed'`
branch of `pollTranslationStatus` (lines 169-174). -/
def pollFailedWrite (s : TranslationStatus) : TranslationStatus :=
  { s with
    isLoading := false,
    error := some "Translation failed. Please try again.",
    status := some "failed" }

/-- The give-up updater of `pollTranslationStatus` (lines 191-196). -/
def giveUpWrite (s : TranslationStatus) : TranslationStatus :=
  { s with
    isLoading := false,
    error := some lostConnectionMessage,
    status := some "unknown" }

/-- The whole-state write of `fetchTranslationResults`' success path
(lines 327-339). -/
def fetchSuccessWrite (s : TranslationStatus) (text origName dir : String)
    (cp tp : ℕ) : TranslationStatus :=
  { isLoading := false, progress := 100, status := some "completed",
    error := none, translatedText := some text, fileName := some origName,
    direction := dir, processId := s.processId,
    currentPage := cp, totalPages := tp }

/-- The demote-to-`in_progress` updater of `fetchTranslationResults`'
"not yet complete" branch (lines 350-354). -/
def fetchNotYetCompleteWrite (s : TranslationStatus) : TranslationStatus :=
  { s with status := some "in_progress" }

/-- The updater of `fetchTranslationResults`' failed auth retry
(lines 367-372). -/
def fetchAuthRetryFailedWrite (s : TranslationStatus) : TranslationStatus :=
  { s with
    isLoading := false,
    status := some "failed",
    error := some "Authentication error when fetching results. Please try again." }

/-- The updater of `fetchTranslationResults`' generic error branch
(lines 378-383). -/
def fetchFailedWrite (s : TranslationStatus) (msg : String) : TranslationStatus :=
  { s with isLoading := false, status := some "failed", error := some msg }

/-- The updater of `handleCancel` (lines 396-401). -/
def cancelWrite (s : TranslationStatus) : TranslationStatus :=
  { s with
    isLoading := false,
    status := some "cancelled",
    error := some "Translation cancelled by user" }

/-- The updater of `handleRetryPolling` (lines 413-419). -/
def retryPollingWrite (s : TranslationStatus) : TranslationStatus :=
  { s with
    isLoading := true,
    error := none,
    status := if s.status = some "failed" ∨ s.status = some "unknown"
      then some "in_progress" else s.status }

/-- Every mutation of `translationStatus` performed by
`DocumentTranslation.jsx`, as a transition relation on the state in which
the write runs.  The `isLoading` guards of `pollTranslationStatus` and
`onTranslate` are checked *before* the `await`s, not when the
continuation's write runs, so `pollUpdate` and `submitOk` carry no guard
here: a cancel (or watchdog race) may flip the state while the request is
in flight and the write still lands.  `retryPolling`'s processId guard
and `submit`'s validation are synchronous with their writes and are kept. -/
inductive Step : TranslationStatus → TranslationStatus → Prop
  | submit (s : TranslationStatus) (fileName toLang : String) :
      Step s (submitReset fileName toLang)
  | submitOk (s : TranslationStatus) (processId status : String) :
      Step s (submitOkWrite s processId status)
  | submitFailed (s : TranslationStatus) (msg : String) :
      Step s (submitFailedWrite s msg)
  | pollUpdate (s : TranslationStatus) (d : StatusResult) :
      Step s (applyStatusUpdate s d)
  | pollFailed (s : TranslationStatus) :
      Step s (pollFailedWrite s)
  | giveUp (s : TranslationStatus) :
      Step s (giveUpWrite s)
  | fetchSuccess (s : TranslationStatus) (text origName dir : String) (cp tp : ℕ) :
      Step s (fetchSuccessWrite s text origName dir cp tp)
  | fetchNotYetComplete (s : TranslationStatus) :
      Step s (fetchNotYetCompleteWrite s)
  | fetchAuthRetryFailed (s : TranslationStatus) :
      Step s (fetchAuthRetryFailedWrite s)
  | fetchFailed (s : TranslationStatus) (msg : String) :
      Step s (fetchFailedWrite s msg)
  | cancel (s : TranslationStatus) :
      Step s (cancelWrite s)
  | retryPolling (s : TranslationStatus) (h : s.processId ≠ none) :
      Step s (retryPollingWrite s)

/-- A page state reachable from the initial state (arbitrary
interleavings: continuations may run after the state stopped loading). -/
def Reachable (s : TranslationStatus) : Prop :=
  Relation.ReflTransGen Step initialTranslationStatus s

/-- The same writes restricted to the interleaving-free discipline: every
status-check or submission continuation runs while the job is still
loading (no cancel, unmount or watchdog race between the guard at
line 130 and the write).  `pollUpdate` and `submitOk` therefore carry the
`isLoading = true` hypothesis that plain `Step` lacks. -/
inductive SeqStep : TranslationStatus → TranslationStatus → Prop
  | submit (s : TranslationStatus) (fileName toLang : String) :
      SeqStep s (submitReset fileName toLang)
  | submitOk (s : TranslationStatus) (processId status : String)
      (h : s.isLoading = true) :
      SeqStep s (submitOkWrite s processId status)
  | submitFailed (s : TranslationStatus) (msg : String) :
      SeqStep s (submitFailedWrite s msg)
  | pollUpdate (s : TranslationStatus) (d : StatusResult) (h : s.isLoading = true) :
      SeqStep s (applyStatusUpdate s d)
  | pollFailed (s : TranslationStatus) :
      SeqStep s (pollFailedWrite s)
  | giveUp (s : TranslationStatus) :
      SeqStep s (giveUpWrite s)
  | fetchSuccess (s : TranslationStatus) (text origName dir : String) (cp tp : ℕ) :
      SeqStep s (fetchSuccessWrite s text origName dir cp tp)
  | fetchNotYetComplete (s : TranslationStatus) :
      SeqStep s (fetchNotYetCompleteWrite s)
  | fetchAuthRetryFailed (s : TranslationStatus) :
      SeqStep s (fetchAuthRetryFailedWrite s)
  | fetchFailed (s : TranslationStatus) (msg : String) :
      SeqStep s (fetchFailedWrite s msg)
  | cancel (s : TranslationStatus) :
      SeqStep s (cancelWrite s)
  | retryPolling (s : TranslationStatus) (h : s.processId ≠ none) :
      SeqStep s (retryPollingWrite s)

/-- A page state reachable under the interleaving-free discipline. -/
def SeqReachable (s : TranslationStatus) : Prop :=
  Relation.ReflTransGen SeqStep initialTranslationStatus s

/-- Terminal statuses other than `completed`. -/
def terminalOther (s : TranslationStatus) : Prop :=
  s.status = some "failed" ∨ s.status = some "cancelled" ∨ s.status = some "unknown"

/-- The settled-state invariant: once the page is no longer loading, a
`completed` job has its translated text and any other terminal job has an
error message. -/
def SettledInv (s : TranslationStatus) : Prop :=
  (s.isLoading = false → s.status = some "completed" → s.translatedText ≠ none) ∧
  (s.isLoading = false → terminalOther s → s.error ≠ none)

end Page

/-! ## Theorems -/

/-- Claim C3: The poll-interval function of `src/unnamed/part_001` computes
base 1.5s for `pending`; for `in_progress` 2s below 25% progress, 3s
below 75%, 4s otherwise; a fixed 1.5s override when the stalled flag is
set; plus jitter `⌊r·1000⌋ − 500 ∈ [−500, +500]` for the `Math.random()`
sample `r ∈ [0, 1)`; plus, when `consecutiveFailures > 0`, a backoff of
`min(maxBackoff, 1000·1.5^failures)` ms (`maxBackoff = 15000`); the final
result is clamped to a minimum of 1000 ms. -/
theorem getPollInterval_formula (status : String) (progress : ℚ)
    (failures : ℕ) (r : ℚ) (hr0 : 0 ≤ r) (hr1 : r < 1) :
    (-500 ≤ Poll.jitterOf r ∧ Poll.jitterOf r ≤ 500) ∧
    (0 < failures →
      Poll.failureBackoff 15000 failures = min 15000 (1000 * (3 / 2 : ℚ) ^ failures)) ∧
    (failures = 0 → Poll.failureBackoff 15000 failures = 0) ∧
    (Poll.getPollInterval status progress true failures r =
      max 1000 (1500 + (Poll.jitterOf r : ℚ) + Poll.failureBackoff 15000 failures)) ∧
    (Poll.getPollInterval "pending" progress false failures r =
      max 1000 (1500 + (Poll.jitterOf r : ℚ) + Poll.failureBackoff 15000 failures)) ∧
    (progress < 25 →
      Poll.getPollInterval "in_progress" progress false failures r =
        max 1000 (2000 + (Poll.jitterOf r : ℚ) + Poll.failureBackoff 15000 failures)) ∧
    (25 ≤ progress → progress < 75 →
      Poll.getPollInterval "in_progress" progress false failures r =
        max 1000 (3000 + (Poll.jitterOf r : ℚ) + Poll.failureBackoff 15000 failures)) ∧
    (75 ≤ progress →
      Poll.getPollInterval "in_progress" progress false failures r =
        max 1000 (4000 + (Poll.jitterOf r : ℚ) + Poll.failureBackoff 15000 failures)) := by
  have hfloor0 : (0 : ℤ) ≤ ⌊r * 1000⌋ := by
    apply Int.floor_nonneg.mpr
    positivity
  have hfloor1 : ⌊r * 1000⌋ < 1000 := by
    apply Int.floor_lt.mpr
    push_cast
    nlinarith
  refine ⟨⟨?_, ?_⟩, ?_, ?_, ?_, ?_, ?_, ?_, ?_⟩
  · unfold Poll.jitterOf; omega
  · unfold Poll.jitterOf; omega
  · intro hf
    rw [Poll.failureBackoff, if_pos hf, min_comm, mul_comm]
  · intro hf
    rw [Poll.failureBackoff, hf]
    simp
  · simp [Poll.getPollInterval]
  · simp [Poll.getPollInterval]
  · intro hp
    simp [Poll.getPollInterval, hp]
  · intro hp1 hp2
    rw [Poll.getPollInterval]
    simp [not_lt.mpr hp1, hp2]
  · intro hp
    have h25 : ¬ progress < 25 := not_lt.mpr (le_trans (by norm_num : (25 : ℚ) ≤ 75) hp)
    rw [Poll.getPollInterval]
    simp [not_lt.mpr hp, h25]

/-- Witness for claim C3: the jitter bound, instantiated at `r = 0`. -/
theorem getPollInterval_formula_witness :
    -500 ≤ Poll.jitterOf 0 ∧ Poll.jitterOf 0 ≤ 500 :=
  (getPollInterval_formula "pending" 0 0 0 le_rfl (by norm_num)).1

/-- Claim C4: The failure-backoff component
`min(1.5^failures · 1000, maxBackoff)` is non-decreasing over failure
counts 1..15 and never exceeds the configured maximum backoff
(15000 ms in `src/unnamed/part_001`, 20000 ms in
`DocumentTranslation.jsx`; `maxBackoff` is kept generic). -/
theorem failureBackoff_monotone_capped (maxBackoff : ℚ) (n : ℕ)
    (h1 : 1 ≤ n) (hlt : n < 15) :
    Poll.failureBackoff maxBackoff n ≤ Poll.failureBackoff maxBackoff (n + 1) ∧
    Poll.failureBackoff maxBackoff (n + 1) ≤ maxBackoff := by
  have hn : 0 < n := h1
  have hn1 : 0 < n + 1 := Nat.succ_pos n
  rw [Poll.failureBackoff, Poll.failureBackoff, if_pos hn, if_pos hn1]
  constructor
  · apply min_le_min _ le_rfl
    have hpow : ((3 : ℚ) / 2) ^ n ≤ (3 / 2 : ℚ) ^ (n + 1) :=
      pow_le_pow_right₀ (by norm_num) (Nat.le_succ n)
    nlinarith
  · exact min_le_right _ _

/-- Witness for claim C4 at `maxBackoff = 15000`, `n = 1`. -/
theorem failureBackoff_monotone_capped_witness :
    Poll.failureBackoff 15000 1 ≤ Poll.failureBackoff 15000 2 ∧
    Poll.failureBackoff 15000 2 ≤ 15000 :=
  failureBackoff_monotone_capped 15000 1 le_rfl (by norm_num)

/-- Claim C9: `balanceService.getBalance` never throws (it is total by
construction) and implements the three-tier fallback chain: the
authenticated endpoint's data when it succeeds; on a 401 the debug
endpoint's data when that endpoint reports an authenticated,
non-anonymous user; otherwise the public endpoint's payload; and the
hardcoded default snapshot (`pagesBalance = 10`, `pagesUsed = 0`) when
the chain fails with network errors. -/
theorem getBalance_fallback_chain
    (d p : BalanceData) (debug : Except JsError DebugBalanceData)
    (pub : Except JsError BalanceData)
    (uid : String) (pb pu : ℚ) (lu : Option String)
    (huid : uid ≠ "anonymous") :
    (ApiJs.getBalance (.ok d) debug pub = d) ∧
    (ApiJs.getBalance (.error { responseStatus := some 401 })
        (.ok { authenticated := true, userId := uid, pagesBalance := pb,
               pagesUsed := pu, lastUsed := lu }) pub =
      { userId := uid, pagesBalance := pb, pagesUsed := pu, lastUsed := lu }) ∧
    (ApiJs.getBalance (.error { responseStatus := some 401 })
        (.ok { authenticated := false, userId := uid, pagesBalance := pb,
               pagesUsed := pu, lastUsed := lu }) (.ok p) = p) ∧
    (ApiJs.getBalance (.error { responseStatus := none }) debug pub =
      ApiJs.defaultBalance) ∧
    (ApiJs.getBalance (.error { responseStatus := some 401 })
        (.error { responseStatus := none }) pub = ApiJs.defaultBalance) ∧
    (ApiJs.getBalance (.error { responseStatus := some 401 })
        (.ok { authenticated := false, userId := uid, pagesBalance := pb,
               pagesUsed := pu, lastUsed := lu })
        (.error { responseStatus := none }) = ApiJs.defaultBalance) ∧
    (ApiJs.defaultBalance.pagesBalance = 10 ∧ ApiJs.defaultBalance.pagesUsed = 0) := by
  refine ⟨rfl, ?_, ?_, rfl, rfl, ?_, rfl, rfl⟩
  · simp [ApiJs.getBalance, huid]
  · simp [ApiJs.getBalance]
  · simp [ApiJs.getBalance, ApiJs.defaultBalance]

/-- Witness for claim C9: Scenario E at concrete values — authenticated
endpoint 401, debug endpoint `authenticated:false` — falls back to the
public endpoint's payload. -/
theorem getBalance_fallback_chain_witness :
    ApiJs.getBalance (.error { responseStatus := some 401 })
        (.ok { authenticated := false, userId := "user1", pagesBalance := 7,
               pagesUsed := 3, lastUsed := none })
        (.ok { userId := "anonymous", pagesBalance := 10, pagesUsed := 0, lastUsed := none }) =
      { userId := "anonymous", pagesBalance := 10, pagesUsed := 0, lastUsed := none } :=
  (getBalance_fallback_chain ApiJs.defaultBalance
      { userId := "anonymous", pagesBalance := 10, pagesUsed := 0, lastUsed := none }
      (.error { responseStatus := none }) (.error { responseStatus := none })
      "user1" 7 3 none (by decide)).2.2.1

/-- `Map.get` after the `finally`-block delete: deleting key `k` removes
exactly the bindings for `k`. -/
theorem findActive_filter_ne (key k : String) (l : List (String × ℕ)) :
    findActive key (l.filter (fun kv => kv.1 != k)) =
      if key = k then none else findActive key l := by
  induction l with
  | nil => simp [findActive]
  | cons hd tl ih =>
      obtain ⟨a, b⟩ := hd
      by_cases hak : a = k
      · subst hak
        by_cases hka : key = a
        · subst hka
          simp [findActive, List.filter_cons, ih]
        · have hka2 : ¬a = key := fun h => hka h.symm
          simp [findActive, List.filter_cons, hka, hka2, ih]
      · by_cases hka : key = a
        · subst hka
          simp [findActive, List.filter_cons, hak, ih]
        · have hka2 : ¬a = key := fun h => hka h.symm
          simp [findActive, List.filter_cons, hak, hka, hka2, ih]

/-- One `call` event: the key called is in flight afterwards; other keys
are untouched. -/
theorem findActive_dedupCall (s : ActiveRequests) (k key : String) :
    (findActive key (dedupCall s k).1.active).isSome =
      if k = key then true else (findActive key s.active).isSome := by
  unfold dedupCall
  cases h : findActive k s.active with
  | some id =>
      by_cases hk : k = key
      · subst hk; simp [h]
      · simp [hk]
  | none =>
      by_cases hk : k = key
      · subst hk; simp [findActive]
      · simp [findActive, hk]

/-- One `settle` event: the settled key is no longer in flight; other
keys are untouched. -/
theorem findActive_settleRequest (s : ActiveRequests) (k key : String) :
    (findActive key (settleRequest s k).active).isSome =
      if k = key then false else (findActive key s.active).isSome := by
  unfold settleRequest
  rw [findActive_filter_ne]
  by_cases hk : k = key
  · subst hk; simp
  · have hk2 : ¬key = k := fun h => hk h.symm
    simp [hk, hk2]

/-- Claim C10: The active-requests map of the de-duplicated operations
(part_003's `checkTranslationStatus`/`getTranslationResult`, api.js's
`getTranslationResult`): when a request settles, its `finally` block
removes the entry before the promise is handed to callers, so the settled
key is absent from the map, a subsequent call for the same process always
fires a fresh network request, and over any trace of call/settle events
the map contains exactly the keys whose requests are still in flight. -/
theorem activeRequests_lifecycle :
    (∀ (s : ActiveRequests) (key : String),
        findActive key (settleRequest s key).active = none) ∧
    (∀ (s : ActiveRequests) (processId : String),
        (Part3.checkStatusCall (settleRequest s (statusKey processId)) processId).2.2 = true ∧
        (Part3.checkStatusCall (settleRequest s (statusKey processId)) processId).1.nextId =
          s.nextId + 1) ∧
    (∀ (s : ActiveRequests) (processId : String),
        (Part3.getResultCall (settleRequest s (resultKey processId)) processId).2.2 = true ∧
        (Part3.getResultCall (settleRequest s (resultKey processId)) processId).1.nextId =
          s.nextId + 1) ∧
    (∀ (t : List ReqEvent) (key : String),
        (findActive key (runRequests t).active).isSome = inFlight key t) := by
  have hsettle : ∀ (s : ActiveRequests) (key : String),
      findActive key (settleRequest s key).active = none := by
    intro s key
    unfold settleRequest
    rw [findActive_filter_ne, if_pos rfl]
  have hfresh : ∀ (s : ActiveRequests) (key : String),
      (dedupCall (settleRequest s key) key).2.2 = true ∧
      (dedupCall (settleRequest s key) key).1.nextId = s.nextId + 1 := by
    intro s key
    unfold dedupCall
    rw [hsettle]
    exact ⟨rfl, rfl⟩
  refine ⟨hsettle, fun s p => hfresh s (statusKey p), fun s p => hfresh s (resultKey p), ?_⟩
  intro t key
  suffices h : ∀ (s : ActiveRequests),
      (findActive key (t.foldl reqStep s).active).isSome =
        t.foldl (fun fl e => inFlightFlag fl key e) ((findActive key s.active).isSome) by
    exact h emptyRequests
  induction t with
  | nil => intro s; simp
  | cons e rest ih =>
      intro s
      rw [List.foldl_cons, List.foldl_cons, ih]
      cases e with
      | call k =>
          rw [show reqStep s (ReqEvent.call k) = (dedupCall s k).1 from rfl]
          rw [findActive_dedupCall]
          rfl
      | settle k =>
          rw [show reqStep s (ReqEvent.settle k) = settleRequest s k from rfl]
          rw [findActive_settleRequest]
          rfl

/-- Claim C2, counterexample: in `src/src/services/api.js`,
`checkTranslationStatus` never consults `_activeRequests`; two calls for
process `"p1"` issued while the first is still in flight fire two network
requests (ids 0 and 1, `nextId` ends at 2) and the callers do not share a
promise — the claim demands exactly one request and a shared pending
promise. -/
theorem checkStatus_dedup_counterexample :
    (ApiJs.checkStatusRequest ((ApiJs.checkStatusRequest emptyRequests "p1").1) "p1").1.nextId
        = 2 ∧
    (ApiJs.checkStatusRequest emptyRequests "p1").2 ≠
      (ApiJs.checkStatusRequest ((ApiJs.checkStatusRequest emptyRequests "p1").1) "p1").2 := by
  exact ⟨rfl, by decide⟩

/-- Claim C2, amended: request de-duplication holds for part_003's
`checkTranslationStatus` and `getTranslationResult` and for api.js's
`getTranslationResult` — a second call issued while the first is in
flight receives the same stored promise and fires no new network request
— but api.js's `checkTranslationStatus` fires a fresh network request on
every call. -/
theorem dedup_shared_promise (s : ActiveRequests) (processId : String)
    (hs : findActive (statusKey processId) s.active = none)
    (hr : findActive (resultKey processId) s.active = none)
    (ha : findActive (apiResultKey processId) s.active = none) :
    ((Part3.checkStatusCall s processId).2.2 = true ∧
     (Part3.checkStatusCall (Part3.checkStatusCall s processId).1 processId).2.2 = false ∧
     (Part3.checkStatusCall (Part3.checkStatusCall s processId).1 processId).2.1 =
       (Part3.checkStatusCall s processId).2.1 ∧
     (Part3.checkStatusCall (Part3.checkStatusCall s processId).1 processId).1.nextId =
       s.nextId + 1) ∧
    ((Part3.getResultCall s processId).2.2 = true ∧
     (Part3.getResultCall (Part3.getResultCall s processId).1 processId).2.2 = false ∧
     (Part3.getResultCall (Part3.getResultCall s processId).1 processId).2.1 =
       (Part3.getResultCall s processId).2.1 ∧
     (Part3.getResultCall (Part3.getResultCall s processId).1 processId).1.nextId =
       s.nextId + 1) ∧
    ((ApiJs.getResultCall s processId).2.2 = true ∧
     (ApiJs.getResultCall (ApiJs.getResultCall s processId).1 processId).2.2 = false ∧
     (ApiJs.getResultCall (ApiJs.getResultCall s processId).1 processId).2.1 =
       (ApiJs.getResultCall s processId).2.1 ∧
     (ApiJs.getResultCall (ApiJs.getResultCall s processId).1 processId).1.nextId =
       s.nextId + 1) ∧
    (∀ (s2 : ActiveRequests) (q : String),
      (ApiJs.checkStatusRequest s2 q).1.nextId = s2.nextId + 1) := by
  have key : ∀ (k : String), findActive k s.active = none →
      (dedupCall s k).2.2 = true ∧
      (dedupCall (dedupCall s k).1 k).2.2 = false ∧
      (dedupCall (dedupCall s k).1 k).2.1 = (dedupCall s k).2.1 ∧
      (dedupCall (dedupCall s k).1 k).1.nextId = s.nextId + 1 := by
    intro k hk
    unfold dedupCall
    rw [hk]
    simp [findActive]
  exact ⟨key _ hs, key _ hr, key _ ha, fun _ _ => rfl⟩

/-- Witness for claim C2's amended theorem: starting from the empty map, the
second concurrent part_003 status check for `"p1"` reuses the in-flight
request. -/
theorem dedup_shared_promise_witness :
    (Part3.checkStatusCall (Part3.checkStatusCall emptyRequests "p1").1 "p1").2.2 = false :=
  (dedup_shared_promise emptyRequests "p1" rfl rfl rfl).1.2.1

/-- A network error with no response whose message does not mention a
timeout (axios's generic `Network Error`, code `ERR_NETWORK`). -/
def plainNetworkError : JsError :=
  { name := "Error", code := "ERR_NETWORK", messageHasTimeout := false,
    responseStatus := none, responseDataError := none }

/-- Claim C5, counterexample: part_003's `checkTranslationStatus` does not
return a fallback status for every missing response — a non-timeout
network error (no response, message without `'timeout'`, code
`ERR_NETWORK`) falls through every fallback branch and the call rejects
with the structured retryable error, where the claim demands a
synthesized fallback status. -/
theorem checkStatus_missingResponse_counterexample :
    (Part3.checkTranslationStatus [] "p1" (.error plainNetworkError)
        (.error plainNetworkError)).result =
      .failure "Failed to check translation status" 500 true := by
  decide

/-- Claim C5, amended: part_003's `checkTranslationStatus` returns (does not
throw) the synthesized fallback — the cached last-known snapshot tagged
`isFallback = true`, or the default `pending/0%` snapshot when none is
cached — on transport timeouts (abort / `ECONNABORTED` / message
mentioning a timeout), on 503, and on any 5xx response; a missing
response that does not look like a timeout instead rejects with a
structured error.  On a successful response it updates the
last-known-status cache and returns the server data with no fallback
tag. -/
theorem checkStatus_fallback_synthesis (cache : Part3.StatusCache) (processId : String)
    (e : JsError) (retryOutcome : Except JsError StatusSnapshot)
    (d snap : StatusSnapshot)
    (he : Part3.isTimeoutError e = true ∨ 500 ≤ e.responseStatus.getD 0) :
    (Part3.checkTranslationStatus cache processId (.error e) retryOutcome =
      { result := .ok (Part3.createFallbackStatus cache processId), cache := cache,
        networkAttempts := 1, tokenCleared := false }) ∧
    (Part3.checkTranslationStatus cache processId (.ok d) retryOutcome =
      { result := .ok { snapshot := d, isFallback := false, isNetworkEstimate := false },
        cache := Part3.updateLastKnownStatus cache processId d,
        networkAttempts := 1, tokenCleared := false }) ∧
    (Part3.cacheGet cache processId = some snap →
      Part3.createFallbackStatus cache processId =
        { snapshot := snap, isFallback := true, isNetworkEstimate := false }) ∧
    (Part3.cacheGet cache processId = none →
      Part3.createFallbackStatus cache processId =
        { snapshot := { processId := some processId, status := "pending", progress := 0,
                        currentPage := 0, totalPages := 0 },
          isFallback := true, isNetworkEstimate := false }) := by
  refine ⟨?_, rfl, ?_, ?_⟩
  · by_cases ht : Part3.isTimeoutError e = true
    · simp [Part3.checkTranslationStatus, ht]
    · have h5 : 500 ≤ e.responseStatus.getD 0 := he.resolve_left ht
      have h401 : ¬ e.responseStatus = some 401 := by
        intro h
        rw [h] at h5
        norm_num at h5
      simp [Part3.checkTranslationStatus, ht, h401, h5]
  · intro h
    unfold Part3.createFallbackStatus
    rw [h]
  · intro h
    unfold Part3.createFallbackStatus
    rw [h]

/-- Witness for claim C5's amended theorem: a 503 response with an empty cache
yields the default pending fallback. -/
theorem checkStatus_fallback_synthesis_witness :
    Part3.checkTranslationStatus [] "p1" (.error { responseStatus := some 503 })
        (.error { responseStatus := some 503 }) =
      { result := .ok (Part3.createFallbackStatus [] "p1"), cache := [],
        networkAttempts := 1, tokenCleared := false } :=
  (checkStatus_fallback_synthesis [] "p1" { responseStatus := some 503 }
      (.error { responseStatus := some 503 })
      { status := "pending", progress := 0 } { status := "pending", progress := 0 }
      (Or.inl (by decide))).1

/-- A bare 401 response. -/
def persistent401 : JsError := { responseStatus := some 401 }

/-- Claim C6, counterexample: `initiateTranslation`'s 401 handler retries by
re-invoking `initiateTranslation` itself, so a repeated 401 is retried
again: with outcomes 401, 401, success the call performs three network
attempts, where "exactly one automatic retry" allows at most two. -/
theorem initiate_retry_counterexample :
    ApiJs.initiateTranslation
        [.error persistent401, .error persistent401, .ok "submitted"] =
      (3, .ok "submitted") := by
  rfl

/-- Claim C6, amended: the 401 policy differs per operation.
`exportToPdf`, `exportToDocx` and `getTranslationResult` clear the cached
token and retry the plain request exactly once, and surface an error to
the caller when the retry also fails.  `exportToDriveAsPdf` and
`exportToDriveAsDocx` perform no automatic retry at all: the 401 error is
rethrown unchanged, with no token clear.  part_003's
`checkTranslationStatus` retries exactly once after clearing the token
but swallows a failing retry into a synthesized fallback status rather
than surfacing it.  `initiateTranslation`'s retry callback is a full
recursive re-invocation of `initiateTranslation`, so each consecutive 401
triggers a further retry rather than exactly one. -/
theorem authRetry_policy (e re : JsError) (h401 : e.responseStatus = some 401)
    (hnt : Part3.isTimeoutError e = false)
    (d : String) (cache : Part3.StatusCache) (processId : String)
    (rest : List (Except JsError String)) :
    (ApiJs.exportToPdf (.error e) (.ok d) = (2, true, .ok d)) ∧
    (ApiJs.exportToPdf (.error e) (.error re) =
      (2, true, .error ((e.responseDataError).getD "Export to PDF failed."))) ∧
    (ApiJs.exportToDocx (.error e) (.ok d) = (2, true, .ok d)) ∧
    (ApiJs.exportToDocx (.error e) (.error re) =
      (2, true, .error ((e.responseDataError).getD "Export to DOCX failed."))) ∧
    (ApiJs.getTranslationResult (.error e) (.ok d) = (2, true, .ok d)) ∧
    (ApiJs.getTranslationResult (.error e) (.error re) =
      (2, true, .error "Failed to fetch translation result. Please try again later.")) ∧
    (ApiJs.exportToDriveAsPdf (.error e) = (1, false, .error e)) ∧
    (ApiJs.exportToDriveAsDocx (.error e) = (1, false, .error e)) ∧
    ((Part3.checkTranslationStatus cache processId (.error e) (.error re)).networkAttempts
        = 2 ∧
     (Part3.checkTranslationStatus cache processId (.error e) (.error re)).tokenCleared
        = true ∧
     (Part3.checkTranslationStatus cache processId (.error e) (.error re)).result =
       .ok (Part3.createFallbackStatus cache processId)) ∧
    (ApiJs.initiateTranslation (.error e :: rest) =
      ((ApiJs.initiateTranslation rest).1 + 1,
        match (ApiJs.initiateTranslation rest).2 with
        | .ok v => .ok v
        | .error _ => .error (ApiJs.initErrorMessage e))) := by
  have hrt : ApiJs.isResultTimeout e = false := by
    unfold Part3.isTimeoutError at hnt
    unfold ApiJs.isResultTimeout
    rcases Bool.or_eq_false_iff.mp hnt with ⟨h1, _⟩
    rcases Bool.or_eq_false_iff.mp h1 with ⟨h2, h3⟩
    rcases Bool.or_eq_false_iff.mp h2 with ⟨h4, h5⟩
    simp [h3, h4, h5]
  have hmsg : ApiJs.resultErrorMessage e =
      "Failed to fetch translation result. Please try again later." := by
    simp [ApiJs.resultErrorMessage, h401]
  refine ⟨?_, ?_, ?_, ?_, ?_, ?_, rfl, rfl, ?_, ?_⟩
  · simp [ApiJs.exportToPdf, h401]
  · simp [ApiJs.exportToPdf, h401]
  · simp [ApiJs.exportToDocx, h401]
  · simp [ApiJs.exportToDocx, h401]
  · simp [ApiJs.getTranslationResult, hrt, h401]
  · simp [ApiJs.getTranslationResult, hrt, h401, hmsg]
  · rw [show Part3.checkTranslationStatus cache processId (.error e) (.error re) =
        { result := .ok (Part3.createFallbackStatus cache processId), cache := cache,
          networkAttempts := 2, tokenCleared := true } from ?_]
    · exact ⟨rfl, rfl, rfl⟩
    · simp [Part3.checkTranslationStatus, hnt, h401]
  · rw [show ApiJs.initiateTranslation (.error e :: rest) =
        (if e.responseStatus = some 401 then
          match ApiJs.initiateTranslation rest with
          | (n, .ok v) => (1 + n, .ok v)
          | (n, .error _) => (1 + n, .error (ApiJs.initErrorMessage e))
        else (1, .error (ApiJs.initErrorMessage e))) from rfl]
    rw [if_pos h401]
    rcases h : ApiJs.initiateTranslation rest with ⟨n, res⟩
    cases res with
    | ok v => simp [Nat.add_comm]
    | error msg => simp [Nat.add_comm]

/-- Witness for claim C6's amended theorem: a 401 followed by a successful
retry on `exportToPdf` performs exactly two attempts with the token
cleared. -/
theorem authRetry_policy_witness :
    ApiJs.exportToPdf (.error persistent401) (.ok "pdf") = (2, true, .ok "pdf") :=
  (authRetry_policy persistent401 persistent401 rfl (by decide) "pdf" [] "p1" []).1

/-- A transport timeout as surfaced by axios (`ECONNABORTED`, message
mentioning a timeout). -/
def timeoutJsError : JsError := { code := "ECONNABORTED", messageHasTimeout := true }

/-- A confirmed 40% `in_progress` status update. -/
def inProgress40 : StatusResult :=
  { snapshot := { status := "in_progress", progress := 40, currentPage := 1, totalPages := 3 } }

/-- Page state of an active job whose last confirmed update reported 40%. -/
def midJobState : Page.TranslationStatus :=
  Page.applyStatusUpdate
    { Page.submitReset "doc.pdf" "en" with processId := some "p1" } inProgress40

/-- The synthesized status api.js's `checkTranslationStatus` resolves
with on a transport timeout: always `pending` at 0%. -/
def networkEstimatePending : StatusResult :=
  { snapshot := { processId := some "p1", status := "pending", progress := 0,
                  currentPage := 0, totalPages := 0 },
    isNetworkEstimate := true }

/-- Claim C1, counterexample: with the job at 40%, a transport timeout makes
api.js's `checkTranslationStatus` resolve with its synthesized
`pending/0%` status, and `pollTranslationStatus` copies that progress
into the displayed state verbatim — the displayed progress drops from 40
to 0 with no new job submitted, where the claim demands it never
decreases. -/
theorem progress_regression_counterexample :
    ApiJs.checkTranslationStatus "p1" (.error timeoutJsError) = .ok networkEstimatePending ∧
    midJobState.progress = 40 ∧
    (Page.applyStatusUpdate midJobState networkEstimatePending).progress = 0 ∧
    (Page.applyStatusUpdate midJobState networkEstimatePending).progress <
      midJobState.progress := by
  refine ⟨?_, rfl, rfl,
    by norm_num [midJobState, Page.applyStatusUpdate, networkEstimatePending, inProgress40]⟩
  simp [ApiJs.checkTranslationStatus, timeoutJsError, networkEstimatePending]

/-- Claim C1, amended: the polling loop applies every status update by
copying its `progress` field verbatim into the displayed state (so the
displayed progress is non-decreasing exactly when the applied updates
carry non-decreasing progress values — the api.js timeout fallback
carries 0 and can decrease it), and submitting a brand-new job resets the
displayed progress to zero. -/
theorem statusUpdate_progress_verbatim (prev : Page.TranslationStatus) (d : StatusResult)
    (fileName toLang : String) :
    (Page.applyStatusUpdate prev d).progress = d.snapshot.progress ∧
    (Page.submitReset fileName toLang).progress = 0 :=
  ⟨rfl, rfl⟩

/-- Polling-loop state of a freshly submitted job for process `"p1"`. -/
def failingPollStart : Page.PollLoop := Page.startedPollLoop "doc.pdf" "en" "p1"

/-- Claim C7, counterexample: when every status check fails, reaching the
ceiling of 15 consecutive failures does not stop polling — after the
15th failure the counter reads 15, the job is still `pending` (not
`unknown`) and a 16th status check is scheduled, where the claim demands
that no further check is ever scheduled once the count reaches 15. -/
theorem ceiling_poll_counterexample :
    (Page.pollFailureStep^[15] failingPollStart).consecFailures = 15 ∧
    (Page.pollFailureStep^[15] failingPollStart).timerScheduled = true ∧
    (Page.pollFailureStep^[15] failingPollStart).ts.status = some "pending" := by
  decide

/-- Claim C7, amended: the give-up test reads the failure count recorded
before the current failure, so the orchestrator gives up on the 16th
consecutive failure: at that point the job is marked `unknown` with the
lost-connection message ("Lost connection to the server. The translation
may still be processing in the background."), loading stops, no further
poll is scheduled, and the resulting state is a fixed point of the
failure step — polling has stopped permanently. -/
theorem giveUp_after_sixteenth_failure :
    (Page.pollFailureStep^[16] failingPollStart).ts.status = some "unknown" ∧
    (Page.pollFailureStep^[16] failingPollStart).ts.isLoading = false ∧
    (Page.pollFailureStep^[16] failingPollStart).ts.error =
      some Page.lostConnectionMessage ∧
    (Page.pollFailureStep^[16] failingPollStart).consecFailures = 16 ∧
    (Page.pollFailureStep^[16] failingPollStart).timerScheduled = false ∧
    Page.pollFailureStep (Page.pollFailureStep^[16] failingPollStart) =
      Page.pollFailureStep^[16] failingPollStart := by
  decide

/-- A `completed` status update as reported by the status endpoint. -/
def completedStatusUpdate : StatusResult :=
  { snapshot := { status := "completed", progress := 100, currentPage := 3, totalPages := 3 } }

/-- The page state right after the polling loop applies a `completed`
status update and before the result fetch resolves. -/
def completedBeforeFetch : Page.TranslationStatus :=
  Page.applyStatusUpdate
    (Page.submitOkWrite (Page.submitReset "doc.pdf" "en") "p1" "pending")
    completedStatusUpdate

/-- Claim C8, counterexample: on observing `status = completed`,
`pollTranslationStatus` first writes the status update into the state and
only then starts the result fetch, so the page passes through a reachable
state whose status is `completed` while `translatedText` is still null —
the claim's "at every point in a job's lifecycle" fails there. -/
theorem completed_without_text_counterexample :
    Page.Reachable completedBeforeFetch ∧
    completedBeforeFetch.status = some "completed" ∧
    completedBeforeFetch.translatedText = none := by
  refine ⟨?_, rfl, rfl⟩
  exact Relation.ReflTransGen.head (Page.Step.submit _ "doc.pdf" "en")
    (Relation.ReflTransGen.head (Page.Step.submitOk _ "p1" "pending")
      (Relation.ReflTransGen.single (Page.Step.pollUpdate _ completedStatusUpdate)))

/-- Claim C8, amended: the per-write guarantees that do hold
unconditionally — every single state write that marks the job `failed`,
`cancelled` or `unknown` sets a non-null `error` in the same write; the
result-fetch success write is the only write that sets `completed`
together with the end of loading, and it sets a non-null
`translatedText`; whereas the verbatim status-copy write (applied for
every status-check response without re-checking the loading guard)
changes neither `error`, `translatedText` nor `isLoading`, which is why a
copied `completed` or `failed` status can land in a state lacking the
corresponding field.  Consequently, in interleaving-free executions —
those in which every status-check or submission continuation runs while
the job is still loading (no cancel, unmount or watchdog race against an
in-flight request) — every reachable settled state satisfies the claimed
invariant: not loading and `completed` implies `translatedText` non-null,
not loading and `failed`/`cancelled`/`unknown` implies `error` non-null.
Under arbitrary interleavings even settled states can violate it. -/
theorem terminal_write_guarantees (s : Page.TranslationStatus) (d : StatusResult)
    (msg text origName dir : String) (cp tp : ℕ) :
    ((Page.pollFailedWrite s).status = some "failed" ∧
     (Page.pollFailedWrite s).error ≠ none) ∧
    ((Page.giveUpWrite s).status = some "unknown" ∧
     (Page.giveUpWrite s).error ≠ none) ∧
    ((Page.cancelWrite s).status = some "cancelled" ∧
     (Page.cancelWrite s).error ≠ none) ∧
    ((Page.submitFailedWrite s msg).status = some "failed" ∧
     (Page.submitFailedWrite s msg).error = some msg) ∧
    ((Page.fetchFailedWrite s msg).status = some "failed" ∧
     (Page.fetchFailedWrite s msg).error = some msg) ∧
    ((Page.fetchAuthRetryFailedWrite s).status = some "failed" ∧
     (Page.fetchAuthRetryFailedWrite s).error ≠ none) ∧
    ((Page.fetchSuccessWrite s text origName dir cp tp).status = some "completed" ∧
     (Page.fetchSuccessWrite s text origName dir cp tp).isLoading = false ∧
     (Page.fetchSuccessWrite s text origName dir cp tp).translatedText = some text) ∧
    ((Page.applyStatusUpdate s d).error = s.error ∧
     (Page.applyStatusUpdate s d).translatedText = s.translatedText ∧
     (Page.applyStatusUpdate s d).isLoading = s.isLoading) ∧
    (∀ t : Page.TranslationStatus, Page.SeqReachable t → Page.SettledInv t) := by
  refine ⟨⟨rfl, by simp [Page.pollFailedWrite]⟩, ⟨rfl, by simp [Page.giveUpWrite]⟩,
    ⟨rfl, by simp [Page.cancelWrite]⟩, ⟨rfl, rfl⟩, ⟨rfl, rfl⟩,
    ⟨rfl, by simp [Page.fetchAuthRetryFailedWrite]⟩, ⟨rfl, rfl, rfl⟩, ⟨rfl, rfl, rfl⟩, ?_⟩
  intro t ht
  induction ht with
  | refl =>
      refine ⟨fun h1 h2 => ?_, fun h1 h2 => ?_⟩
      · simp [Page.initialTranslationStatus] at h2
      · simp [Page.terminalOther, Page.initialTranslationStatus] at h2
  | tail hr hstep ih =>
      cases hstep with
      | submit fn tl =>
          refine ⟨fun h1 h2 => ?_, fun h1 h2 => ?_⟩ <;> simp [Page.submitReset] at h1
      | submitOk pid st hload =>
          refine ⟨fun h1 h2 => ?_, fun h1 h2 => ?_⟩ <;>
            simp [Page.submitOkWrite, hload] at h1
      | submitFailed msg =>
          refine ⟨fun h1 h2 => ?_, fun h1 h2 => by simp [Page.submitFailedWrite]⟩
          simp [Page.submitFailedWrite] at h2
      | pollUpdate d hload =>
          refine ⟨fun h1 h2 => ?_, fun h1 h2 => ?_⟩ <;>
            simp [Page.applyStatusUpdate, hload] at h1
      | pollFailed =>
          refine ⟨fun h1 h2 => ?_, fun h1 h2 => by simp [Page.pollFailedWrite]⟩
          simp [Page.pollFailedWrite] at h2
      | giveUp =>
          refine ⟨fun h1 h2 => ?_, fun h1 h2 => by simp [Page.giveUpWrite]⟩
          simp [Page.giveUpWrite] at h2
      | fetchSuccess text origName dir cp tp =>
          refine ⟨fun h1 h2 => by simp [Page.fetchSuccessWrite], fun h1 h2 => ?_⟩
          simp [Page.terminalOther, Page.fetchSuccessWrite] at h2
      | fetchNotYetComplete =>
          refine ⟨fun h1 h2 => ?_, fun h1 h2 => ?_⟩
          · simp [Page.fetchNotYetCompleteWrite] at h2
          · simp [Page.terminalOther, Page.fetchNotYetCompleteWrite] at h2
      | fetchAuthRetryFailed =>
          refine ⟨fun h1 h2 => ?_, fun h1 h2 => by simp [Page.fetchAuthRetryFailedWrite]⟩
          simp [Page.fetchAuthRetryFailedWrite] at h2
      | fetchFailed msg =>
          refine ⟨fun h1 h2 => ?_, fun h1 h2 => by simp [Page.fetchFailedWrite]⟩
          simp [Page.fetchFailedWrite] at h2
      | cancel =>
          refine ⟨fun h1 h2 => ?_, fun h1 h2 => by simp [Page.cancelWrite]⟩
          simp [Page.cancelWrite] at h2
      | retryPolling hp =>
          refine ⟨fun h1 h2 => ?_, fun h1 h2 => ?_⟩ <;>
            simp [Page.retryPollingWrite] at h1

/-- Witness for claim C8's amended theorem: the interleaving-free
invariant applied to the initial page state (reachable by the empty run),
with the write-level facts instantiated at that state. -/
theorem terminal_write_guarantees_witness :
    Page.SettledInv Page.initialTranslationStatus :=
  (terminal_write_guarantees Page.initialTranslationStatus
      { snapshot := { status := "pending", progress := 0 } }
      "m" "t" "f" "ltr" 0 0).2.2.2.2.2.2.2.2
    Page.initialTranslationStatus Relation.ReflTransGen.refl
